import Mathlib

/-!
# Verification of `cobra/summary/metabolite_summary.py`

A shallow embedding of `MetaboliteSummary`: the construction of the
producing/consuming flux tables (`_generate`), the render-time filtering
(`_display_flux`), and the two rendering entry points (`to_string`,
`to_html`).

Numeric values flowing through the pandas pipeline are IEEE doubles in the
source.  The claims under study involve exact zero tests, sign
classification and the sign of stored zeros, so values are modelled as a
rational magnitude-with-sign pair `SF` (`q` is the real value, `nz` is the
IEEE sign bit, which is only observable when `q = 0`: a "negative zero").
Division used for the percentage column is modelled as `Option ℚ`, `none`
standing for the non-finite IEEE result of dividing by a zero total.
-/

namespace MetaboliteSummary

/-- A floating-point value: exact rational value `q` plus the IEEE sign
bit `nz`, which carries information only when `q = 0` (negative zero). -/
structure SF where
  q : ℚ
  nz : Bool
  deriving DecidableEq, Repr

/-- Embed a plain rational (stoichiometric coefficients from
`Reaction.get_coefficient`) as a float with canonical sign bit. -/
def SF.ofQ (x : ℚ) : SF :=
  ⟨x, decide (x < 0)⟩

/-- Positive zero, the literal `0` that pandas `where(..., 0)` writes. -/
def SF.posZero : SF :=
  ⟨0, false⟩

/-- The IEEE sign bit of a value: determined by `q` when `q ≠ 0`, by the
stored bit at zero. -/
def SF.sign (x : SF) : Bool :=
  if x.q < 0 then true else if 0 < x.q then false else x.nz

/-- IEEE multiplication on finite values: magnitudes multiply, sign bits
xor (this is what makes `(+0) * (-1) = -0`). Embeds the pandas `*=` and
`.mul` steps of `_generate`. -/
def SF.mul (a b : SF) : SF :=
  ⟨a.q * b.q, xor a.sign b.sign⟩

/-- IEEE addition of positive-zero literal `0` to a finite value: the
identity on non-zero values, while `(-0) + 0 = +0`.  Embeds the
`flux[...] += 0` normalization (source lines 128 and 133). -/
def SF.addZero (x : SF) : SF :=
  if x.q = 0 then SF.posZero else x

/-- The absolute value used by the pandas `.abs()` calls, written as an
executable conditional. -/
def qabs (x : ℚ) : ℚ :=
  if x < 0 then -x else x

/-- Zero-snapping, `view.where(view.abs() >= model.tolerance, 0)` (source
line 115) and equivalently `flux.loc[flux["flux"].abs() < model.tolerance,
"flux"] = 0` (source line 131): keep a value whose absolute value reaches
the tolerance, replace anything smaller by positive zero. -/
def snap (tol : ℚ) (x : SF) : SF :=
  if tol ≤ qabs x.q then x else SF.posZero

/-- One input row of the basic flux table (source lines 100-107):
reaction identifier, raw solver flux `solution[r.id]`, and stoichiometric
factor `r.get_coefficient(metabolite.id)`. -/
structure RowIn where
  reaction : String
  flux : SF
  factor : ℚ
  deriving DecidableEq, Repr

/-- A fully constructed row of the internal flux table after scaling,
zero-snapping, bound orientation and `+0` normalization.  `minimum` and
`maximum` are present exactly when FVA data was supplied (the join on
source line 112). -/
structure FluxRow where
  reaction : String
  flux : SF
  factor : ℚ
  minimum : Option SF
  maximum : Option SF
  deriving DecidableEq, Repr

/-- Build one row of the flux table, following `_generate` (source lines
100-133): scale the flux by the factor; with FVA (`fva = some f`) snap
flux and raw bounds to zero below tolerance, scale the bounds by the
factor, swap the bounds when the factor is negative, then normalize zeros
with `+0`; without FVA only the flux is snapped and normalized. -/
def buildRow (tol : ℚ) (fva : Option (String → SF × SF)) (r : RowIn) : FluxRow :=
  let scaled := SF.mul r.flux (SF.ofQ r.factor)
  match fva with
  | none =>
      { reaction := r.reaction
        flux := (snap tol scaled).addZero
        factor := r.factor
        minimum := none
        maximum := none }
  | some f =>
      let mn := (f r.reaction).1
      let mx := (f r.reaction).2
      let flux1 := snap tol scaled
      let mn1 := SF.mul (snap tol mn) (SF.ofQ r.factor)
      let mx1 := SF.mul (snap tol mx) (SF.ofQ r.factor)
      let mn2 := if r.factor < 0 then mx1 else mn1
      let mx2 := if r.factor < 0 then mn1 else mx1
      { reaction := r.reaction
        flux := flux1.addZero
        factor := r.factor
        minimum := some mn2.addZero
        maximum := some mx2.addZero }

/-- The full internal flux table `self._flux`, one row per reaction. -/
def fluxTable (tol : ℚ) (fva : Option (String → SF × SF)) (rows : List RowIn) :
    List FluxRow :=
  rows.map (buildRow tol fva)

/-- `is_produced` (source line 137): positive scaled flux, or zero scaled
flux with positive factor. -/
def isProduced (r : FluxRow) : Bool :=
  decide (0 < r.flux.q ∨ (r.flux.q = 0 ∧ 0 < r.factor))

/-- `is_consumed` (source line 149): negative scaled flux, or zero scaled
flux with negative factor. -/
def isConsumed (r : FluxRow) : Bool :=
  decide (r.flux.q < 0 ∨ (r.flux.q = 0 ∧ r.factor < 0))

/-- IEEE division of the non-negative absolute fluxes by their total:
finite exact quotient for a non-zero total, non-finite (`none`) when the
total is zero. -/
def percOf (x total : ℚ) : Option ℚ :=
  if total = 0 then none else some (x / total)

/-- A row of a produced summary table: the selected flux-table row
together with its `percent` column. -/
structure PRow where
  base : FluxRow
  percent : Option ℚ
  deriving DecidableEq, Repr

/-- A produced summary table (`producing_fluxes` / `consuming_fluxes`): the
selected column names and the percentage-annotated rows, indexed by
reaction identifier. -/
structure FluxTable where
  columns : List String
  rows : List PRow
  deriving DecidableEq, Repr

/-- Total absolute scaled flux of a selection, `flux.abs().sum()` (source
lines 144-145 and 156-157). -/
def selTotal (sel : List FluxRow) : ℚ :=
  (sel.map fun r => qabs r.flux.q).sum

/-- Annotate a selection of rows with its `percent` column (source lines
144-145): each row's percent is its absolute flux over the selection's
total absolute flux. -/
def mkTable (cols : List String) (sel : List FluxRow) : FluxTable :=
  { columns := cols ++ ["percent"]
    rows := sel.map fun r => ⟨r, percOf (qabs r.flux.q) (selTotal sel)⟩ }

/-- The column selection applied when building `producing_fluxes` and
`consuming_fluxes` (source lines 139-143 and 150-155): with FVA the bound
columns are kept, without it only flux and reaction; `factor` is dropped
in both cases. -/
def selectedCols (fva : Option (String → SF × SF)) : List String :=
  match fva with
  | some _ => ["flux", "minimum", "maximum", "reaction"]
  | none => ["flux", "reaction"]

/-- `_generate` (source lines 99-159): build the flux table, then the
producing and consuming tables with their percentage columns. -/
def generate (tol : ℚ) (fva : Option (String → SF × SF)) (rows : List RowIn) :
    FluxTable × FluxTable :=
  let tbl := fluxTable tol fva rows
  (mkTable (selectedCols fva) (tbl.filter isProduced),
    mkTable (selectedCols fva) (tbl.filter isConsumed))

/-- Row-addressability: look a row up by its reaction identifier (the
DataFrame index of `producing_fluxes` / `consuming_fluxes`). -/
def FluxTable.lookup (t : FluxTable) (rid : String) : Option PRow :=
  t.rows.find? fun r => r.base.reaction == rid

/-- The total absolute scaled flux of a produced table. -/
def tableTotal (t : FluxTable) : ℚ :=
  (t.rows.map fun r => qabs r.base.flux.q).sum

/-- One row of the frame assembled by `_display_flux` (source lines
161-182): percent, flux, the optional `range = (minimum, maximum)` pair,
reaction identifier, and the human-readable reaction definition string. -/
structure DisplayRow where
  percent : Option ℚ
  flux : SF
  range : Option (SF × SF)
  reaction : String
  definition : String
  deriving DecidableEq, Repr

/-- The frame returned by `_display_flux`: the selected display columns
and the surviving, annotated rows. -/
structure DisplayFrame where
  columns : List String
  rows : List DisplayRow
  deriving DecidableEq, Repr

/-- The row filter of `_display_flux` (source lines 162-170): when the
bound columns exist, keep a row whose absolute flux, minimum or maximum
reaches the threshold; otherwise test only the flux. -/
def keepRow (hasBounds : Bool) (threshold : ℚ) (r : PRow) : Bool :=
  if hasBounds then
    decide (threshold ≤ qabs r.base.flux.q) ||
      decide (threshold ≤ qabs (r.base.minimum.getD SF.posZero).q) ||
        decide (threshold ≤ qabs (r.base.maximum.getD SF.posZero).q)
  else
    decide (threshold ≤ qabs r.base.flux.q)

/-- `_display_flux` (source lines 161-182): filter the rows of a fresh
copy of the stored frame by the threshold, attach the reaction definition
column, and when the bound columns exist collapse them into a `range`
pair column.  `rxnDef` stands for `Reaction.build_reaction_string`, an
external collaborator, applied to the reaction identifier. -/
def displayFlux (rxnDef : Bool → String → String) (frame : FluxTable)
    (names : Bool) (threshold : ℚ) : DisplayFrame :=
  let hasB := decide ("minimum" ∈ frame.columns) && decide ("maximum" ∈ frame.columns)
  let kept := frame.rows.filter (keepRow hasB threshold)
  { columns :=
      if hasB then ["percent", "flux", "range", "reaction", "definition"]
      else ["percent", "flux", "reaction", "definition"]
    rows := kept.map fun r =>
      { percent := r.percent
        flux := r.base.flux
        range :=
          if hasB then
            some (r.base.minimum.getD SF.posZero, r.base.maximum.getD SF.posZero)
          else none
        reaction := r.base.reaction
        definition := rxnDef names r.base.reaction } }

/-- A serialized table.  `pandas.DataFrame.to_string` / `to_html` are
opaque external formatters (spec §1), so the rendering is modelled by the
data that fully determines it: the title-cased column headers, the
display rows, the numeric format string, and the column width (`none`
for the HTML renderer, which performs no width elision). -/
structure Rendered where
  columns : List String
  rows : List DisplayRow
  floatFormat : String
  width : Option ℕ
  deriving DecidableEq, Repr

/-- `_string_table` (source lines 184-197): title-case the headers and
serialize with the given float format and column width. -/
def stringTable (frame : DisplayFrame) (floatFormat : String) (columnWidth : ℕ) :
    Rendered :=
  { columns := frame.columns.map String.capitalize
    rows := frame.rows
    floatFormat := floatFormat
    width := some columnWidth }

/-- `_html_table` (source lines 199-211): title-case the headers and
serialize with the given float format, no width elision. -/
def htmlTable (frame : DisplayFrame) (floatFormat : String) : Rendered :=
  { columns := frame.columns.map String.capitalize
    rows := frame.rows
    floatFormat := floatFormat
    width := none }

/-- The state of a constructed `MetaboliteSummary` object: the metabolite
snapshot's identifier, display name and formula, the model's numerical
tolerance, the reaction-definition formatter from the reaction snapshots,
the stored producing and consuming tables, and the internal flux table. -/
structure SummaryState where
  metId : String
  metName : String
  formula : String
  tolerance : ℚ
  rxnDef : Bool → String → String
  producing : FluxTable
  consuming : FluxTable
  fluxFull : List FluxRow

/-- Modelled from the spec: `normalize_cutoff` (from
`cobra.flux_analysis.helpers`, not part of the sources in scope) widens
the caller-supplied threshold to at least the model's numerical
tolerance. -/
def normalizeCutoff (tolerance threshold : ℚ) : ℚ :=
  max tolerance threshold

/-- The output of `to_string` (source lines 213-252): the metabolite
header together with the width passed to the opaque `textwrap.shorten`
formatter, the formula, and the two rendered tables. -/
structure StringOutput where
  header : String × ℕ
  formula : String
  production : Rendered
  consumption : Rendered
  deriving DecidableEq, Repr

/-- The output of `to_html` (source lines 254-277): the metabolite
header, the formula, and the two rendered tables. -/
structure HtmlOutput where
  header : String
  formula : String
  production : Rendered
  consumption : Rendered
  deriving DecidableEq, Repr

/-- The value computed by `to_string`: the threshold is first normalized
against the model tolerance (source line 220), then both stored tables
are filtered, annotated and serialized. -/
def toStringOut (s : SummaryState) (names : Bool) (threshold : ℚ)
    (floatFormat : String) (columnWidth : ℕ) : StringOutput :=
  let threshold := normalizeCutoff s.tolerance threshold
  { header := (if names then s.metName else s.metId, columnWidth)
    formula := s.formula
    production :=
      stringTable (displayFlux s.rxnDef s.producing names threshold) floatFormat
        columnWidth
    consumption :=
      stringTable (displayFlux s.rxnDef s.consuming names threshold) floatFormat
        columnWidth }

/-- `to_string` as a state transformer.  `_display_flux` copies the
stored frame before writing the definition column into it (source lines
163-170), and `_string_table` retitles the columns of that same fresh
frame, so the call leaves the summary state unchanged. -/
def toStringS (s : SummaryState) (names : Bool) (threshold : ℚ)
    (floatFormat : String) (columnWidth : ℕ) : StringOutput × SummaryState :=
  (toStringOut s names threshold floatFormat columnWidth, s)

/-- The value computed by `to_html`: the stored tables are filtered with
the caller-supplied threshold as given (no `normalize_cutoff` call in
source lines 254-268), annotated and serialized. -/
def toHtmlOut (s : SummaryState) (names : Bool) (threshold : ℚ)
    (floatFormat : String) : HtmlOutput :=
  { header := if names then s.metName else s.metId
    formula := s.formula
    production := htmlTable (displayFlux s.rxnDef s.producing names threshold) floatFormat
    consumption := htmlTable (displayFlux s.rxnDef s.consuming names threshold) floatFormat }

/-- `to_html` as a state transformer; like `to_string` it only reads the
stored tables (the in-place writes in `_display_flux` and `_html_table`
hit fresh copies). -/
def toHtmlS (s : SummaryState) (names : Bool) (threshold : ℚ)
    (floatFormat : String) : HtmlOutput × SummaryState :=
  (toHtmlOut s names threshold floatFormat, s)

/-- `__init__` (source lines 40-78): snapshot the metabolite data, sort
the reaction rows by identifier, and run `_generate` to populate the
producing and consuming tables. -/
def mkSummary (metId metName formula : String) (tolerance : ℚ)
    (rxnDef : Bool → String → String) (rows : List RowIn)
    (fva : Option (String → SF × SF)) : SummaryState :=
  let sorted := rows.mergeSort fun a b => a.reaction ≤ b.reaction
  let tables := generate tolerance fva sorted
  { metId := metId
    metName := metName
    formula := formula
    tolerance := tolerance
    rxnDef := rxnDef
    producing := tables.1
    consuming := tables.2
    fluxFull := fluxTable tolerance fva sorted }

/-! ## Basic lemmas about the embedded operations -/

/-- The executable absolute value agrees with the mathematical one. -/
theorem qabs_eq_abs (x : ℚ) : qabs x = |x| := by
  unfold qabs
  split
  · exact (abs_of_neg (by assumption)).symm
  · exact (abs_of_nonneg (not_lt.mp (by assumption))).symm

/-- The executable absolute value is non-negative. -/
theorem qabs_nonneg (x : ℚ) : 0 ≤ qabs x := by
  rw [qabs_eq_abs]
  exact abs_nonneg x

/-- `+0` never changes the rational value. -/
theorem SF.addZero_q (x : SF) : (SF.addZero x).q = x.q := by
  unfold SF.addZero
  split
  · simp [SF.posZero, *]
  · rfl

/-- If the result of `+0` is a zero, it is the positive zero. -/
theorem SF.addZero_eq_posZero (x : SF) (h : (SF.addZero x).q = 0) :
    SF.addZero x = SF.posZero := by
  unfold SF.addZero at *
  split at h
  · simp [SF.addZero, *]
  · exact absurd h (by assumption)

/-- `buildRow` keeps the input's stoichiometric factor. -/
theorem buildRow_factor (tol : ℚ) (fva : Option (String → SF × SF)) (r : RowIn) :
    (buildRow tol fva r).factor = r.factor := by
  unfold buildRow
  cases fva <;> rfl

/-- `buildRow` keeps the input's reaction identifier. -/
theorem buildRow_reaction (tol : ℚ) (fva : Option (String → SF × SF)) (r : RowIn) :
    (buildRow tol fva r).reaction = r.reaction := by
  unfold buildRow
  cases fva <;> rfl

/-- Without FVA no bound columns are stored; with FVA both are. -/
theorem buildRow_bounds (tol : ℚ) (fva : Option (String → SF × SF)) (r : RowIn) :
    (buildRow tol fva r).minimum.isSome = fva.isSome ∧
      (buildRow tol fva r).maximum.isSome = fva.isSome := by
  unfold buildRow
  cases fva <;> simp

/-- The value of a product. -/
theorem SF.mul_q (a b : SF) : (SF.mul a b).q = a.q * b.q :=
  rfl

/-- The value of an embedded rational. -/
theorem SF.ofQ_q (x : ℚ) : (SF.ofQ x).q = x :=
  rfl

/-- The value after snapping. -/
theorem snap_q (tol : ℚ) (x : SF) :
    (snap tol x).q = if tol ≤ qabs x.q then x.q else 0 := by
  unfold snap
  split <;> simp [SF.posZero]

/-- Snapping a value whose absolute value is below the tolerance yields
the positive zero. -/
theorem snap_of_lt (tol : ℚ) (x : SF) (h : qabs x.q < tol) :
    snap tol x = SF.posZero := by
  unfold snap
  rw [if_neg (not_le.mpr h)]

/-- `+0` maps any zero to the positive zero. -/
theorem SF.addZero_of_zero (x : SF) (h : x.q = 0) : SF.addZero x = SF.posZero := by
  unfold SF.addZero
  rw [if_pos h]

/-- The FVA branch of `buildRow`, written out: flux snapped and
normalized, each stored bound the `+0`-normalization of a raw bound
snapped, scaled by the factor, and placed according to the factor's
sign. -/
theorem buildRow_some (tol : ℚ) (f : String → SF × SF) (r : RowIn) :
    buildRow tol (some f) r =
      { reaction := r.reaction
        flux := (snap tol (SF.mul r.flux (SF.ofQ r.factor))).addZero
        factor := r.factor
        minimum := some ((if r.factor < 0
            then SF.mul (snap tol (f r.reaction).2) (SF.ofQ r.factor)
            else SF.mul (snap tol (f r.reaction).1) (SF.ofQ r.factor)).addZero)
        maximum := some ((if r.factor < 0
            then SF.mul (snap tol (f r.reaction).1) (SF.ofQ r.factor)
            else SF.mul (snap tol (f r.reaction).2) (SF.ofQ r.factor)).addZero) } := by
  unfold buildRow
  by_cases hc : r.factor < 0 <;> simp [hc]

/-- The plain branch of `buildRow`, written out. -/
theorem buildRow_none (tol : ℚ) (r : RowIn) :
    buildRow tol none r =
      { reaction := r.reaction
        flux := (snap tol (SF.mul r.flux (SF.ofQ r.factor))).addZero
        factor := r.factor
        minimum := none
        maximum := none } :=
  rfl

/-- A raw lower bound below the tolerance is stored as the positive zero,
at the `maximum` slot when the factor is negative (the swap moves it),
at the `minimum` slot otherwise. -/
theorem snappedMin_posZero (tol : ℚ) (f : String → SF × SF) (r : RowIn)
    (hmn : qabs (f r.reaction).1.q < tol) :
    (if r.factor < 0 then (buildRow tol (some f) r).maximum
      else (buildRow tol (some f) r).minimum) = some SF.posZero := by
  rw [buildRow_some]
  by_cases hc : r.factor < 0 <;>
      simp [hc, snap_of_lt _ _ hmn] <;>
    exact SF.addZero_of_zero _ (by simp [SF.mul_q, SF.posZero])

/-- A raw upper bound below the tolerance is stored as the positive zero,
at the `minimum` slot when the factor is negative, at the `maximum` slot
otherwise. -/
theorem snappedMax_posZero (tol : ℚ) (f : String → SF × SF) (r : RowIn)
    (hmx : qabs (f r.reaction).2.q < tol) :
    (if r.factor < 0 then (buildRow tol (some f) r).minimum
      else (buildRow tol (some f) r).maximum) = some SF.posZero := by
  rw [buildRow_some]
  by_cases hc : r.factor < 0 <;>
      simp [hc, snap_of_lt _ _ hmx] <;>
    exact SF.addZero_of_zero _ (by simp [SF.mul_q, SF.posZero])

/-- Every zero stored anywhere in a constructed row is the positive
zero. -/
theorem buildRow_zero_posZero (tol : ℚ) (fva : Option (String → SF × SF))
    (r : RowIn) (v : SF)
    (h : (buildRow tol fva r).minimum = some v ∨
      (buildRow tol fva r).maximum = some v ∨ v = (buildRow tol fva r).flux)
    (hq : v.q = 0) : v.nz = false := by
  have key : ∀ x : SF, SF.addZero x = v → v.nz = false := by
    intro x hx
    have : SF.addZero x = SF.posZero := by
      apply SF.addZero_eq_posZero
      rw [hx]
      exact hq
    rw [hx] at this
    rw [this]
    rfl
  cases fva with
  | none =>
      rcases h with h | h | h
      · rw [buildRow_none] at h
        cases h
      · rw [buildRow_none] at h
        cases h
      · rw [buildRow_none] at h
        exact key _ h.symm
  | some f =>
      rcases h with h | h | h
      · rw [buildRow_some] at h
        exact key _ (Option.some_injective _ h)
      · rw [buildRow_some] at h
        exact key _ (Option.some_injective _ h)
      · rw [buildRow_some] at h
        exact key _ h.symm

/-- Splitting a list by two pointwise exclusive and exhaustive predicates
yields a permutation of the list. -/
theorem filter_filter_perm {α : Type} (p c : α → Bool) (l : List α)
    (h : ∀ a ∈ l, (p a = true ∧ c a = false) ∨ (p a = false ∧ c a = true)) :
    (l.filter p ++ l.filter c).Perm l := by
  induction l with
  | nil => simp
  | cons a t ih =>
      have ht : ∀ x ∈ t, (p x = true ∧ c x = false) ∨ (p x = false ∧ c x = true) :=
        fun x hx => h x (List.mem_cons_of_mem a hx)
      rcases h a (List.mem_cons_self a t) with ⟨hp, hc⟩ | ⟨hp, hc⟩
      · simpa [List.filter_cons, hp, hc] using (ih ht).cons a
      · simp only [List.filter_cons, hp, hc, cond_true, cond_false]
        exact List.perm_middle.trans ((ih ht).cons a)

/-- Dividing every element of a list by a constant divides the sum. -/
theorem sum_map_div (l : List ℚ) (d : ℚ) :
    (l.map fun x => x / d).sum = l.sum / d := by
  induction l with
  | nil => simp
  | cons a t ih => simp [ih, add_div]

/-- In a list whose keys are pairwise distinct, `find?` by the key of a
member returns exactly that member. -/
theorem find?_eq_of_nodup_keys {α : Type} (key : α → String) (l : List α)
    (hnd : (l.map key).Nodup) (a : α) (ha : a ∈ l) :
    l.find? (fun x => key x == key a) = some a := by
  induction l with
  | nil => cases ha
  | cons b t ih =>
      rcases List.mem_cons.mp ha with rfl | hat
      · simp [List.find?_cons]
      · have hkey : key b ≠ key a := by
          intro hk
          have : key a ∈ t.map key := List.mem_map_of_mem key hat
          rw [← hk] at this
          exact (List.nodup_cons.mp hnd).1 this
        have hnd' : (t.map key).Nodup := (List.nodup_cons.mp hnd).2
        have hb : (key b == key a) = false := beq_eq_false_iff_ne.mpr hkey
        simp only [List.find?_cons, hb]
        exact ih hnd' hat

/-- The total of a produced table is the total of its selection. -/
theorem tableTotal_mkTable (cols : List String) (sel : List FluxRow) :
    tableTotal (mkTable cols sel) = selTotal sel := by
  simp only [tableTotal, mkTable, selTotal, List.map_map, Function.comp_def]

/-- Percentage facts for any produced table with non-zero total: every
percent is a finite value in `[0, 1]` and the percents sum to `1`. -/
theorem mkTable_percent_props (cols : List String) (sel : List FluxRow)
    (h : selTotal sel ≠ 0) :
    (∀ row ∈ (mkTable cols sel).rows, ∃ p, row.percent = some p ∧ 0 ≤ p ∧ p ≤ 1) ∧
      ((mkTable cols sel).rows.map fun r => r.percent.getD 0).sum = 1 := by
  have hnn : ∀ x ∈ sel.map fun r => qabs r.flux.q, 0 ≤ x := by
    intro x hx
    rcases List.mem_map.mp hx with ⟨r, _, rfl⟩
    exact qabs_nonneg _
  have hT0 : 0 ≤ selTotal sel := List.sum_nonneg hnn
  have hTpos : 0 < selTotal sel := lt_of_le_of_ne hT0 (Ne.symm h)
  constructor
  · intro row hrow
    rcases List.mem_map.mp hrow with ⟨r, hr, rfl⟩
    refine ⟨qabs r.flux.q / selTotal sel, ?_, ?_, ?_⟩
    · simp [percOf, h]
    · exact div_nonneg (qabs_nonneg _) hT0
    · rw [div_le_one hTpos]
      exact List.single_le_sum hnn _ (List.mem_map_of_mem _ hr)
  · have hmap : (mkTable cols sel).rows.map (fun r => r.percent.getD 0) =
        (sel.map fun r => qabs r.flux.q).map fun x => x / selTotal sel := by
      simp only [mkTable, List.map_map, Function.comp_def, percOf, if_neg h,
        Option.getD_some]
    rw [hmap, sum_map_div]
    exact div_self h

/-- Structural facts about any produced summary table: its exact columns
(no `factor` column), bound presence mirroring FVA presence, and
row-addressability by reaction identifier when the input reactions are
distinct. -/
theorem producedTable_props (tol : ℚ) (fva : Option (String → SF × SF))
    (rows : List RowIn) (p : FluxRow → Bool)
    (hnd : (rows.map RowIn.reaction).Nodup) :
    (mkTable (selectedCols fva) ((fluxTable tol fva rows).filter p)).columns =
        (if fva.isSome then ["flux", "minimum", "maximum", "reaction", "percent"]
          else ["flux", "reaction", "percent"]) ∧
      "factor" ∉
        (mkTable (selectedCols fva) ((fluxTable tol fva rows).filter p)).columns ∧
      ∀ row ∈ (mkTable (selectedCols fva)
          ((fluxTable tol fva rows).filter p)).rows,
        row.base.minimum.isSome = fva.isSome ∧
          row.base.maximum.isSome = fva.isSome ∧
          (mkTable (selectedCols fva)
              ((fluxTable tol fva rows).filter p)).lookup row.base.reaction =
            some row := by
  refine ⟨?_, ?_, ?_⟩
  · cases fva <;> rfl
  · cases fva <;> simp [mkTable, selectedCols]
  · have hkeys : ((mkTable (selectedCols fva)
        ((fluxTable tol fva rows).filter p)).rows.map
          fun x => x.base.reaction).Nodup := by
      have h1 : (mkTable (selectedCols fva)
          ((fluxTable tol fva rows).filter p)).rows.map
            (fun x => x.base.reaction) =
          ((fluxTable tol fva rows).filter p).map FluxRow.reaction := by
        simp [mkTable, List.map_map, Function.comp_def]
      have h2 : List.Sublist
          (((fluxTable tol fva rows).filter p).map FluxRow.reaction)
          ((fluxTable tol fva rows).map FluxRow.reaction) :=
        List.Sublist.map _ (List.filter_sublist _)
      have h3 : (fluxTable tol fva rows).map FluxRow.reaction =
          rows.map RowIn.reaction := by
        simp [fluxTable, List.map_map, Function.comp_def, buildRow_reaction]
      rw [h1]
      exact List.Nodup.sublist (h3 ▸ h2) hnd
    intro row hrow
    rcases List.mem_map.mp hrow with ⟨r, hr, hreq⟩
    have hrt : r ∈ fluxTable tol fva rows := List.mem_of_mem_filter hr
    rcases List.mem_map.mp hrt with ⟨ri, _, hri⟩
    refine ⟨?_, ?_, ?_⟩
    · rw [← hreq]
      simpa using (hri ▸ (buildRow_bounds tol fva ri).1)
    · rw [← hreq]
      simpa using (hri ▸ (buildRow_bounds tol fva ri).2)
    · exact find?_eq_of_nodup_keys (fun x => x.base.reaction) _ hkeys row hrow

/-! ## Claims -/

/-- C1: every constructed flux row whose stoichiometric factor is
non-zero satisfies exactly one of `is_produced` and `is_consumed`; the
two filtered selections are disjoint in that sense and together form a
permutation of the full flux table; the producing and consuming tables
are built from exactly those selections; and a row with exactly-zero
scaled flux is classified by the sign of its factor alone. -/
theorem claim_C1 (tol : ℚ) (fva : Option (String → SF × SF)) (rows : List RowIn)
    (hf : ∀ r ∈ rows, r.factor ≠ 0) :
    (∀ row ∈ fluxTable tol fva rows,
        (isProduced row = true ∧ isConsumed row = false) ∨
          (isProduced row = false ∧ isConsumed row = true)) ∧
      ((fluxTable tol fva rows).filter isProduced ++
          (fluxTable tol fva rows).filter isConsumed).Perm (fluxTable tol fva rows) ∧
      (generate tol fva rows).1.rows.map PRow.base =
        (fluxTable tol fva rows).filter isProduced ∧
      (generate tol fva rows).2.rows.map PRow.base =
        (fluxTable tol fva rows).filter isConsumed ∧
      ∀ row ∈ fluxTable tol fva rows, row.flux.q = 0 →
        isProduced row = decide (0 < row.factor) ∧
          isConsumed row = decide (row.factor < 0) := by
  have hrow : ∀ row ∈ fluxTable tol fva rows, row.factor ≠ 0 := by
    intro row hr
    rcases List.mem_map.mp hr with ⟨r, hrmem, rfl⟩
    rw [buildRow_factor]
    exact hf r hrmem
  have hxor : ∀ row ∈ fluxTable tol fva rows,
      (isProduced row = true ∧ isConsumed row = false) ∨
        (isProduced row = false ∧ isConsumed row = true) := by
    intro row hr
    have hfac := hrow row hr
    rcases lt_trichotomy row.flux.q 0 with h | h | h
    · right
      refine ⟨?_, ?_⟩ <;> simp [isProduced, isConsumed, h, h.ne, asymm h]
    · rcases hfac.lt_or_lt with hneg | hpos
      · right
        refine ⟨?_, ?_⟩ <;>
          simp [isProduced, isConsumed, h, hneg, asymm hneg, lt_irrefl]
      · left
        refine ⟨?_, ?_⟩ <;>
          simp [isProduced, isConsumed, h, hpos, asymm hpos, lt_irrefl]
    · left
      refine ⟨?_, ?_⟩ <;> simp [isProduced, isConsumed, h, h.ne', asymm h]
  refine ⟨hxor, filter_filter_perm _ _ _ hxor, ?_, ?_, ?_⟩
  · simp only [generate, mkTable, List.map_map, Function.comp_def]
    exact List.map_id _
  · simp only [generate, mkTable, List.map_map, Function.comp_def]
    exact List.map_id _
  · intro row hr h0
    have hfac := hrow row hr
    constructor <;> simp [isProduced, isConsumed, h0, lt_irrefl]

/-- Witness for C1 at the spec §8 scenario: reactions `A` (factor 1,
flux 5) and `B` (factor -2, flux 3). -/
theorem claim_C1_witness :
    (∀ r ∈ [RowIn.mk "A" ⟨5, false⟩ 1, RowIn.mk "B" ⟨3, false⟩ (-2)],
        r.factor ≠ 0) ∧
      ((∀ row ∈ fluxTable (1/1000) none
            [RowIn.mk "A" ⟨5, false⟩ 1, RowIn.mk "B" ⟨3, false⟩ (-2)],
          (isProduced row = true ∧ isConsumed row = false) ∨
            (isProduced row = false ∧ isConsumed row = true)) ∧
        ((fluxTable (1/1000) none
              [RowIn.mk "A" ⟨5, false⟩ 1, RowIn.mk "B" ⟨3, false⟩ (-2)]).filter
              isProduced ++
            (fluxTable (1/1000) none
                [RowIn.mk "A" ⟨5, false⟩ 1, RowIn.mk "B" ⟨3, false⟩ (-2)]).filter
              isConsumed).Perm
          (fluxTable (1/1000) none
            [RowIn.mk "A" ⟨5, false⟩ 1, RowIn.mk "B" ⟨3, false⟩ (-2)]) ∧
        (generate (1/1000) none
              [RowIn.mk "A" ⟨5, false⟩ 1, RowIn.mk "B" ⟨3, false⟩ (-2)]).1.rows.map
            PRow.base =
          (fluxTable (1/1000) none
              [RowIn.mk "A" ⟨5, false⟩ 1, RowIn.mk "B" ⟨3, false⟩ (-2)]).filter
            isProduced ∧
        (generate (1/1000) none
              [RowIn.mk "A" ⟨5, false⟩ 1, RowIn.mk "B" ⟨3, false⟩ (-2)]).2.rows.map
            PRow.base =
          (fluxTable (1/1000) none
              [RowIn.mk "A" ⟨5, false⟩ 1, RowIn.mk "B" ⟨3, false⟩ (-2)]).filter
            isConsumed ∧
        ∀ row ∈ fluxTable (1/1000) none
            [RowIn.mk "A" ⟨5, false⟩ 1, RowIn.mk "B" ⟨3, false⟩ (-2)],
          row.flux.q = 0 →
            isProduced row = decide (0 < row.factor) ∧
              isConsumed row = decide (row.factor < 0)) :=
  ⟨by decide, claim_C1 (1/1000) none _ (by decide)⟩

/-- C2: for either of the producing and consuming tables, when the
table's total absolute scaled flux is non-zero, every row's percent is a
finite value in `[0, 1]` and the percents over the whole (unfiltered)
table sum to exactly `1`. -/
theorem claim_C2 (tol : ℚ) (fva : Option (String → SF × SF)) (rows : List RowIn)
    (t : FluxTable)
    (ht : t = (generate tol fva rows).1 ∨ t = (generate tol fva rows).2)
    (htot : tableTotal t ≠ 0) :
    (∀ row ∈ t.rows, ∃ p, row.percent = some p ∧ 0 ≤ p ∧ p ≤ 1) ∧
      (t.rows.map fun r => r.percent.getD 0).sum = 1 := by
  rcases ht with rfl | rfl
  · rw [show (generate tol fva rows).1 =
        mkTable (selectedCols fva) ((fluxTable tol fva rows).filter isProduced)
        from rfl] at htot ⊢
    exact mkTable_percent_props _ _ (by rwa [tableTotal_mkTable] at htot)
  · rw [show (generate tol fva rows).2 =
        mkTable (selectedCols fva) ((fluxTable tol fva rows).filter isConsumed)
        from rfl] at htot ⊢
    exact mkTable_percent_props _ _ (by rwa [tableTotal_mkTable] at htot)

/-- Witness for C2 at the spec §8 scenario, on the producing table. -/
theorem claim_C2_witness :
    ((generate (1/1000) none
          [RowIn.mk "A" ⟨5, false⟩ 1, RowIn.mk "B" ⟨3, false⟩ (-2)]).1 =
        (generate (1/1000) none
            [RowIn.mk "A" ⟨5, false⟩ 1, RowIn.mk "B" ⟨3, false⟩ (-2)]).1 ∨
      (generate (1/1000) none
            [RowIn.mk "A" ⟨5, false⟩ 1, RowIn.mk "B" ⟨3, false⟩ (-2)]).1 =
        (generate (1/1000) none
            [RowIn.mk "A" ⟨5, false⟩ 1, RowIn.mk "B" ⟨3, false⟩ (-2)]).2) ∧
      tableTotal
          (generate (1/1000) none
              [RowIn.mk "A" ⟨5, false⟩ 1, RowIn.mk "B" ⟨3, false⟩ (-2)]).1 ≠ 0 ∧
      ((∀ row ∈ (generate (1/1000) none
            [RowIn.mk "A" ⟨5, false⟩ 1, RowIn.mk "B" ⟨3, false⟩ (-2)]).1.rows,
          ∃ p, row.percent = some p ∧ 0 ≤ p ∧ p ≤ 1) ∧
        ((generate (1/1000) none
              [RowIn.mk "A" ⟨5, false⟩ 1,
                RowIn.mk "B" ⟨3, false⟩ (-2)]).1.rows.map fun r =>
            r.percent.getD 0).sum = 1) :=
  ⟨Or.inl rfl,
    by
      norm_num [tableTotal, generate, mkTable, fluxTable, buildRow, selTotal,
        snap, SF.mul, SF.ofQ, SF.addZero, SF.posZero, SF.sign, isProduced,
        isConsumed, percOf, qabs],
    claim_C2 (1/1000) none _ _ (Or.inl rfl)
      (by
        norm_num [tableTotal, generate, mkTable, fluxTable, buildRow, selTotal,
          snap, SF.mul, SF.ofQ, SF.addZero, SF.posZero, SF.sign, isProduced,
          isConsumed, percOf, qabs])⟩

/-- C3 (counterexample): the claim fails for the markup entry point.
`to_html` never normalizes the caller-supplied threshold, so at a summary
with tolerance `1` holding a stored FVA bound of absolute value `1/2`,
rendering at threshold `1/2` keeps the row while rendering at the
tolerance drops it: the two outputs differ although `1/2` is below the
tolerance. -/
theorem claim_C3_counterexample :
    (1/2 : ℚ) <
        (mkSummary "m" "met" "CH4" 1 (fun _ r => r)
            [RowIn.mk "R1" ⟨0, false⟩ (1/2)]
            (some fun _ => (⟨1, false⟩, ⟨1, false⟩))).tolerance ∧
      toHtmlOut
          (mkSummary "m" "met" "CH4" 1 (fun _ r => r)
            [RowIn.mk "R1" ⟨0, false⟩ (1/2)]
            (some fun _ => (⟨1, false⟩, ⟨1, false⟩)))
          false (1/2) ".4G" ≠
        toHtmlOut
          (mkSummary "m" "met" "CH4" 1 (fun _ r => r)
            [RowIn.mk "R1" ⟨0, false⟩ (1/2)]
            (some fun _ => (⟨1, false⟩, ⟨1, false⟩)))
          false
          (mkSummary "m" "met" "CH4" 1 (fun _ r => r)
            [RowIn.mk "R1" ⟨0, false⟩ (1/2)]
            (some fun _ => (⟨1, false⟩, ⟨1, false⟩))).tolerance
          ".4G" := by
  constructor
  · norm_num [mkSummary]
  · norm_num [toHtmlOut, mkSummary, generate, mkTable, fluxTable, buildRow,
      snap, SF.mul, SF.ofQ, SF.addZero, SF.posZero, SF.sign, isProduced,
      isConsumed, percOf, selTotal, selectedCols, htmlTable, displayFlux,
      keepRow, qabs, List.mergeSort, List.filter_cons, decide_eq_true_eq]

/-- C3 (amended): only the plain-text entry point widens the
caller-supplied threshold to at least the model's tolerance, so for any
threshold at most the tolerance `to_string` renders exactly as at the
tolerance; the markup entry point passes the caller's threshold through
to the row filter unchanged. -/
theorem claim_C3_amended (s : SummaryState) (names : Bool) (t : ℚ)
    (ff : String) (cw : ℕ) (h : t ≤ s.tolerance) :
    (toStringS s names t ff cw).1 = (toStringS s names s.tolerance ff cw).1 ∧
      (toHtmlS s names t ff).1.production =
        htmlTable (displayFlux s.rxnDef s.producing names t) ff ∧
      (toHtmlS s names t ff).1.consumption =
        htmlTable (displayFlux s.rxnDef s.consuming names t) ff := by
  refine ⟨?_, rfl, rfl⟩
  simp [toStringS, toStringOut, normalizeCutoff, max_eq_left h, max_self]

/-- Witness for C3 (amended) at a concrete summary with tolerance `1`
and threshold `1/2`. -/
theorem claim_C3_amended_witness :
    (1/2 : ℚ) ≤
        (mkSummary "m" "met" "CH4" 1 (fun _ r => r)
            [RowIn.mk "R1" ⟨0, false⟩ (1/2)]
            (some fun _ => (⟨1, false⟩, ⟨1, false⟩))).tolerance ∧
      ((toStringS
            (mkSummary "m" "met" "CH4" 1 (fun _ r => r)
              [RowIn.mk "R1" ⟨0, false⟩ (1/2)]
              (some fun _ => (⟨1, false⟩, ⟨1, false⟩)))
            false (1/2) ".4G" 79).1 =
          (toStringS
            (mkSummary "m" "met" "CH4" 1 (fun _ r => r)
              [RowIn.mk "R1" ⟨0, false⟩ (1/2)]
              (some fun _ => (⟨1, false⟩, ⟨1, false⟩)))
            false
            (mkSummary "m" "met" "CH4" 1 (fun _ r => r)
              [RowIn.mk "R1" ⟨0, false⟩ (1/2)]
              (some fun _ => (⟨1, false⟩, ⟨1, false⟩))).tolerance
            ".4G" 79).1 ∧
        (toHtmlS
            (mkSummary "m" "met" "CH4" 1 (fun _ r => r)
              [RowIn.mk "R1" ⟨0, false⟩ (1/2)]
              (some fun _ => (⟨1, false⟩, ⟨1, false⟩)))
            false (1/2) ".4G").1.production =
          htmlTable
            (displayFlux
              (mkSummary "m" "met" "CH4" 1 (fun _ r => r)
                [RowIn.mk "R1" ⟨0, false⟩ (1/2)]
                (some fun _ => (⟨1, false⟩, ⟨1, false⟩))).rxnDef
              (mkSummary "m" "met" "CH4" 1 (fun _ r => r)
                [RowIn.mk "R1" ⟨0, false⟩ (1/2)]
                (some fun _ => (⟨1, false⟩, ⟨1, false⟩))).producing
              false (1/2))
            ".4G" ∧
        (toHtmlS
            (mkSummary "m" "met" "CH4" 1 (fun _ r => r)
              [RowIn.mk "R1" ⟨0, false⟩ (1/2)]
              (some fun _ => (⟨1, false⟩, ⟨1, false⟩)))
            false (1/2) ".4G").1.consumption =
          htmlTable
            (displayFlux
              (mkSummary "m" "met" "CH4" 1 (fun _ r => r)
                [RowIn.mk "R1" ⟨0, false⟩ (1/2)]
                (some fun _ => (⟨1, false⟩, ⟨1, false⟩))).rxnDef
              (mkSummary "m" "met" "CH4" 1 (fun _ r => r)
                [RowIn.mk "R1" ⟨0, false⟩ (1/2)]
                (some fun _ => (⟨1, false⟩, ⟨1, false⟩))).consuming
              false (1/2))
            ".4G") :=
  ⟨by norm_num [mkSummary],
    claim_C3_amended _ false (1/2) ".4G" 79 (by norm_num [mkSummary])⟩

/-- C4 (counterexample): when no variability data is supplied, the
producing table of a one-reaction summary has columns
`flux, reaction, percent` only — no `factor` column (and no range or
bound columns either) — while the table does contain a row, so the row
does not expose its factor. -/
theorem claim_C4_counterexample :
    (generate 1 none [RowIn.mk "R1" ⟨1, false⟩ 1]).1.columns =
        ["flux", "reaction", "percent"] ∧
      "factor" ∉ (generate 1 none [RowIn.mk "R1" ⟨1, false⟩ 1]).1.columns ∧
      "range" ∉ (generate 1 none [RowIn.mk "R1" ⟨1, false⟩ 1]).1.columns ∧
      "minimum" ∉ (generate 1 none [RowIn.mk "R1" ⟨1, false⟩ 1]).1.columns ∧
      "maximum" ∉ (generate 1 none [RowIn.mk "R1" ⟨1, false⟩ 1]).1.columns ∧
      (generate 1 none [RowIn.mk "R1" ⟨1, false⟩ 1]).1.rows.length = 1 := by
  refine ⟨rfl, by decide, by decide, by decide, by decide, ?_⟩
  norm_num [generate, mkTable, fluxTable, buildRow, snap, SF.mul, SF.ofQ,
    SF.addZero, SF.posZero, SF.sign, isProduced, isConsumed, percOf, selTotal,
    selectedCols, qabs, List.filter_cons, decide_eq_true_eq]

/-- C4 (amended): each constructed table is row-addressable by reaction
identifier (given distinct reaction identifiers) and carries the columns
`flux`, `reaction` and `percent`, plus `minimum` and `maximum` exactly
when variability data is supplied; the `factor` column is not part of
either table. -/
theorem claim_C4_amended (tol : ℚ) (fva : Option (String → SF × SF))
    (rows : List RowIn) (t : FluxTable)
    (hnd : (rows.map RowIn.reaction).Nodup)
    (ht : t = (generate tol fva rows).1 ∨ t = (generate tol fva rows).2) :
    t.columns =
        (if fva.isSome then ["flux", "minimum", "maximum", "reaction", "percent"]
          else ["flux", "reaction", "percent"]) ∧
      "factor" ∉ t.columns ∧
      ∀ row ∈ t.rows,
        row.base.minimum.isSome = fva.isSome ∧
          row.base.maximum.isSome = fva.isSome ∧
          t.lookup row.base.reaction = some row := by
  rcases ht with rfl | rfl
  · exact producedTable_props tol fva rows isProduced hnd
  · exact producedTable_props tol fva rows isConsumed hnd

/-- Witness for C4 (amended) at a two-reaction summary with FVA data. -/
theorem claim_C4_amended_witness :
    ([RowIn.mk "A" ⟨1, false⟩ 1, RowIn.mk "B" ⟨2, false⟩ (-1)].map
        RowIn.reaction).Nodup ∧
      ((generate 1 (some fun _ => (⟨1, false⟩, ⟨2, false⟩))
            [RowIn.mk "A" ⟨1, false⟩ 1, RowIn.mk "B" ⟨2, false⟩ (-1)]).1.columns =
          ["flux", "minimum", "maximum", "reaction", "percent"] ∧
        "factor" ∉ (generate 1 (some fun _ => (⟨1, false⟩, ⟨2, false⟩))
            [RowIn.mk "A" ⟨1, false⟩ 1, RowIn.mk "B" ⟨2, false⟩ (-1)]).1.columns ∧
        ∀ row ∈ (generate 1 (some fun _ => (⟨1, false⟩, ⟨2, false⟩))
            [RowIn.mk "A" ⟨1, false⟩ 1, RowIn.mk "B" ⟨2, false⟩ (-1)]).1.rows,
          row.base.minimum.isSome =
              (some fun _ : String => (SF.mk 1 false, SF.mk 2 false)).isSome ∧
            row.base.maximum.isSome =
              (some fun _ : String => (SF.mk 1 false, SF.mk 2 false)).isSome ∧
            (generate 1 (some fun _ => (⟨1, false⟩, ⟨2, false⟩))
                [RowIn.mk "A" ⟨1, false⟩ 1,
                  RowIn.mk "B" ⟨2, false⟩ (-1)]).1.lookup row.base.reaction =
              some row) :=
  ⟨by decide,
    claim_C4_amended 1 (some fun _ => (⟨1, false⟩, ⟨2, false⟩))
      [RowIn.mk "A" ⟨1, false⟩ 1, RowIn.mk "B" ⟨2, false⟩ (-1)] _ (by decide)
      (Or.inl rfl)⟩

/-- C5: a scaled flux below the model tolerance is stored as exactly the
positive zero (in both the FVA and the plain branch); a raw bound below
the tolerance is stored as the positive zero at the slot the orientation
swap moves it to, showing the snapping precedes the bound swap;
sign-classification then sees the snapped zero and falls back to the sign
of the factor; and any stored zero anywhere in a constructed row carries
a positive sign bit. -/
theorem claim_C5 (tol : ℚ) (f : String → SF × SF) (r : RowIn)
    (hflux : qabs (SF.mul r.flux (SF.ofQ r.factor)).q < tol)
    (hmn : qabs (f r.reaction).1.q < tol)
    (hmx : qabs (f r.reaction).2.q < tol) :
    (buildRow tol (some f) r).flux = SF.posZero ∧
      (buildRow tol none r).flux = SF.posZero ∧
      (if r.factor < 0 then (buildRow tol (some f) r).maximum
        else (buildRow tol (some f) r).minimum) = some SF.posZero ∧
      (if r.factor < 0 then (buildRow tol (some f) r).minimum
        else (buildRow tol (some f) r).maximum) = some SF.posZero ∧
      isProduced (buildRow tol (some f) r) = decide (0 < r.factor) ∧
      isConsumed (buildRow tol (some f) r) = decide (r.factor < 0) ∧
      isProduced (buildRow tol none r) = decide (0 < r.factor) ∧
      isConsumed (buildRow tol none r) = decide (r.factor < 0) ∧
      ∀ (fva : Option (String → SF × SF)) (rr : RowIn) (v : SF),
        ((buildRow tol fva rr).minimum = some v ∨
          (buildRow tol fva rr).maximum = some v ∨
          v = (buildRow tol fva rr).flux) →
        v.q = 0 → v.nz = false := by
  have hsflux : snap tol (SF.mul r.flux (SF.ofQ r.factor)) = SF.posZero :=
    snap_of_lt _ _ hflux
  have hfluxSome : (buildRow tol (some f) r).flux = SF.posZero := by
    rw [buildRow_some]
    show (snap tol (SF.mul r.flux (SF.ofQ r.factor))).addZero = SF.posZero
    rw [hsflux]
    exact SF.addZero_of_zero _ rfl
  have hfluxNone : (buildRow tol none r).flux = SF.posZero := by
    rw [buildRow_none]
    show (snap tol (SF.mul r.flux (SF.ofQ r.factor))).addZero = SF.posZero
    rw [hsflux]
    exact SF.addZero_of_zero _ rfl
  have hclass : ∀ row : FluxRow, row.flux = SF.posZero →
      isProduced row = decide (0 < row.factor) ∧
        isConsumed row = decide (row.factor < 0) := by
    intro row hz
    unfold isProduced isConsumed
    rw [hz]
    constructor <;> exact decide_eq_decide.mpr (by simp [SF.posZero])
  refine ⟨hfluxSome, hfluxNone, snappedMin_posZero tol f r hmn,
    snappedMax_posZero tol f r hmx, ?_, ?_, ?_, ?_,
    fun fva rr v h hq => buildRow_zero_posZero tol fva rr v h hq⟩
  · rw [(hclass _ hfluxSome).1, buildRow_factor]
  · rw [(hclass _ hfluxSome).2, buildRow_factor]
  · rw [(hclass _ hfluxNone).1, buildRow_factor]
  · rw [(hclass _ hfluxNone).2, buildRow_factor]

/-- Witness for C5 at tolerance `1`, raw flux `1/4`, factor `-2`
(scaled flux `-1/2`), raw bounds `(1/2, -1/2)`, all below tolerance. -/
theorem claim_C5_witness :
    qabs (SF.mul ⟨1/4, false⟩ (SF.ofQ (-2))).q < 1 ∧
      qabs (SF.mk (1/2) false).q < 1 ∧
      qabs (SF.mk (-1/2) false).q < 1 ∧
      ((buildRow 1 (some fun _ => (⟨1/2, false⟩, ⟨-1/2, false⟩))
          (RowIn.mk "A" ⟨1/4, false⟩ (-2))).flux = SF.posZero ∧
        (buildRow 1 none (RowIn.mk "A" ⟨1/4, false⟩ (-2))).flux = SF.posZero ∧
        (if ((-2 : ℚ)) < 0 then
            (buildRow 1 (some fun _ => (⟨1/2, false⟩, ⟨-1/2, false⟩))
              (RowIn.mk "A" ⟨1/4, false⟩ (-2))).maximum
          else
            (buildRow 1 (some fun _ => (⟨1/2, false⟩, ⟨-1/2, false⟩))
              (RowIn.mk "A" ⟨1/4, false⟩ (-2))).minimum) = some SF.posZero ∧
        (if ((-2 : ℚ)) < 0 then
            (buildRow 1 (some fun _ => (⟨1/2, false⟩, ⟨-1/2, false⟩))
              (RowIn.mk "A" ⟨1/4, false⟩ (-2))).minimum
          else
            (buildRow 1 (some fun _ => (⟨1/2, false⟩, ⟨-1/2, false⟩))
              (RowIn.mk "A" ⟨1/4, false⟩ (-2))).maximum) = some SF.posZero ∧
        isProduced (buildRow 1 (some fun _ => (⟨1/2, false⟩, ⟨-1/2, false⟩))
            (RowIn.mk "A" ⟨1/4, false⟩ (-2))) = decide ((0 : ℚ) < -2) ∧
        isConsumed (buildRow 1 (some fun _ => (⟨1/2, false⟩, ⟨-1/2, false⟩))
            (RowIn.mk "A" ⟨1/4, false⟩ (-2))) = decide ((-2 : ℚ) < 0) ∧
        isProduced (buildRow 1 none (RowIn.mk "A" ⟨1/4, false⟩ (-2))) =
          decide ((0 : ℚ) < -2) ∧
        isConsumed (buildRow 1 none (RowIn.mk "A" ⟨1/4, false⟩ (-2))) =
          decide ((-2 : ℚ) < 0) ∧
        ∀ (fva : Option (String → SF × SF)) (rr : RowIn) (v : SF),
          ((buildRow 1 fva rr).minimum = some v ∨
            (buildRow 1 fva rr).maximum = some v ∨
            v = (buildRow 1 fva rr).flux) →
          v.q = 0 → v.nz = false) :=
  ⟨by norm_num [SF.mul_q, SF.ofQ_q, qabs], by norm_num [qabs],
    by norm_num [qabs],
    claim_C5 1 (fun _ => (⟨1/2, false⟩, ⟨-1/2, false⟩))
      (RowIn.mk "A" ⟨1/4, false⟩ (-2))
      (by norm_num [SF.mul_q, SF.ofQ_q, qabs])
      (by norm_num [qabs]) (by norm_num [qabs])⟩

/-- C6: with FVA data and a negative factor, the stored minimum is the
scaled raw maximum and the stored maximum is the scaled raw minimum (the
bounds are scaled, then swapped), and for raw bounds `lo < hi` the stored
pair satisfies `minimum ≤ maximum`. -/
theorem claim_C6 (tol : ℚ) (f : String → SF × SF) (r : RowIn)
    (hneg : r.factor < 0)
    (hlohi : (f r.reaction).1.q < (f r.reaction).2.q) :
    (buildRow tol (some f) r).minimum =
        some ((SF.mul (snap tol (f r.reaction).2) (SF.ofQ r.factor)).addZero) ∧
      (buildRow tol (some f) r).maximum =
        some ((SF.mul (snap tol (f r.reaction).1) (SF.ofQ r.factor)).addZero) ∧
      ∀ mn mx, (buildRow tol (some f) r).minimum = some mn →
        (buildRow tol (some f) r).maximum = some mx → mn.q ≤ mx.q := by
  have h1 : (buildRow tol (some f) r).minimum =
      some ((SF.mul (snap tol (f r.reaction).2) (SF.ofQ r.factor)).addZero) := by
    rw [buildRow_some]
    simp [hneg]
  have h2 : (buildRow tol (some f) r).maximum =
      some ((SF.mul (snap tol (f r.reaction).1) (SF.ofQ r.factor)).addZero) := by
    rw [buildRow_some]
    simp [hneg]
  refine ⟨h1, h2, ?_⟩
  intro mn mx hmn hmx
  rw [h1] at hmn
  rw [h2] at hmx
  have hmn' := Option.some_injective _ hmn.symm
  have hmx' := Option.some_injective _ hmx.symm
  rw [hmn', hmx', SF.addZero_q, SF.addZero_q, SF.mul_q, SF.mul_q, SF.ofQ_q,
    snap_q, snap_q, qabs_eq_abs, qabs_eq_abs]
  have habs_lo : (f r.reaction).1.q ≤ |(f r.reaction).1.q| := le_abs_self _
  have habs_hi : (f r.reaction).2.q ≤ |(f r.reaction).2.q| := le_abs_self _
  by_cases hh : tol ≤ |(f r.reaction).2.q| <;>
    by_cases hl : tol ≤ |(f r.reaction).1.q| <;>
    simp only [hh, hl, if_pos, if_neg, not_false_iff, if_true, if_false,
      zero_mul]
  · exact mul_le_mul_of_nonpos_right (le_of_lt hlohi) (le_of_lt hneg)
  · have hlo_small : |(f r.reaction).1.q| < tol := not_le.mp hl
    rcases abs_lt.mp hlo_small with ⟨hlo1, hlo2⟩
    rcases le_abs.mp hh with hcase | hcase
    · have hhi_pos : 0 < (f r.reaction).2.q := by
        have : 0 ≤ |(f r.reaction).1.q| := abs_nonneg _
        linarith
      exact le_of_lt (mul_neg_of_pos_of_neg hhi_pos hneg)
    · exfalso
      linarith
  · have hhi_small : |(f r.reaction).2.q| < tol := not_le.mp hh
    rcases abs_lt.mp hhi_small with ⟨hhi1, hhi2⟩
    rcases le_abs.mp hl with hcase | hcase
    · exfalso
      linarith
    · have hlo_neg : (f r.reaction).1.q < 0 := by
        have : 0 ≤ |(f r.reaction).2.q| := abs_nonneg _
        linarith
      exact le_of_lt (mul_pos_of_neg_of_neg hlo_neg hneg)
  · exact le_refl 0

/-- Witness for C6 at the spec §8 scenario: raw bounds `(-2, 4)` with
factor `-1` and tolerance `1/1000` store minimum `-4` and maximum `2`. -/
theorem claim_C6_witness :
    ((-1 : ℚ)) < 0 ∧
      (SF.mk (-2) false).q < (SF.mk 4 false).q ∧
      (buildRow (1/1000) (some fun _ => (⟨-2, false⟩, ⟨4, false⟩))
          (RowIn.mk "C" ⟨1, false⟩ (-1))).minimum = some ⟨-4, true⟩ ∧
      (buildRow (1/1000) (some fun _ => (⟨-2, false⟩, ⟨4, false⟩))
          (RowIn.mk "C" ⟨1, false⟩ (-1))).maximum = some ⟨2, false⟩ ∧
      ((buildRow (1/1000) (some fun _ => (⟨-2, false⟩, ⟨4, false⟩))
            (RowIn.mk "C" ⟨1, false⟩ (-1))).minimum =
          some ((SF.mul (snap (1/1000) ⟨4, false⟩) (SF.ofQ (-1))).addZero) ∧
        (buildRow (1/1000) (some fun _ => (⟨-2, false⟩, ⟨4, false⟩))
            (RowIn.mk "C" ⟨1, false⟩ (-1))).maximum =
          some ((SF.mul (snap (1/1000) ⟨-2, false⟩) (SF.ofQ (-1))).addZero) ∧
        ∀ mn mx,
          (buildRow (1/1000) (some fun _ => (⟨-2, false⟩, ⟨4, false⟩))
              (RowIn.mk "C" ⟨1, false⟩ (-1))).minimum = some mn →
          (buildRow (1/1000) (some fun _ => (⟨-2, false⟩, ⟨4, false⟩))
              (RowIn.mk "C" ⟨1, false⟩ (-1))).maximum = some mx →
          mn.q ≤ mx.q) :=
  ⟨by norm_num, by norm_num,
    by
      norm_num [buildRow_some, snap, qabs, SF.mul, SF.ofQ, SF.addZero,
        SF.posZero, SF.sign],
    by
      norm_num [buildRow_some, snap, qabs, SF.mul, SF.ofQ, SF.addZero,
        SF.posZero, SF.sign],
    claim_C6 (1/1000) (fun _ => (⟨-2, false⟩, ⟨4, false⟩))
      (RowIn.mk "C" ⟨1, false⟩ (-1)) (by norm_num) (by norm_num)⟩

/-- C7: a table whose total absolute scaled flux is zero is still
produced — its rows are exactly the classified selection — and every one
of its percent values is the non-finite result of dividing by the zero
total; no error is raised. -/
theorem claim_C7 (tol : ℚ) (fva : Option (String → SF × SF)) (rows : List RowIn)
    (t : FluxTable)
    (ht : t = (generate tol fva rows).1 ∨ t = (generate tol fva rows).2)
    (h0 : tableTotal t = 0) :
    (t.rows.map PRow.base = (fluxTable tol fva rows).filter isProduced ∨
        t.rows.map PRow.base = (fluxTable tol fva rows).filter isConsumed) ∧
      ∀ row ∈ t.rows, row.percent = none := by
  rcases ht with rfl | rfl
  · refine ⟨Or.inl ?_, ?_⟩
    · simp only [generate, mkTable, List.map_map, Function.comp_def]
      exact List.map_id _
    · intro row hrow
      rcases List.mem_map.mp hrow with ⟨r, _, rfl⟩
      have hT : selTotal ((fluxTable tol fva rows).filter isProduced) = 0 := by
        rwa [show (generate tol fva rows).1 =
            mkTable (selectedCols fva) ((fluxTable tol fva rows).filter isProduced)
            from rfl, tableTotal_mkTable] at h0
      simp [percOf, hT]
  · refine ⟨Or.inr ?_, ?_⟩
    · simp only [generate, mkTable, List.map_map, Function.comp_def]
      exact List.map_id _
    · intro row hrow
      rcases List.mem_map.mp hrow with ⟨r, _, rfl⟩
      have hT : selTotal ((fluxTable tol fva rows).filter isConsumed) = 0 := by
        rwa [show (generate tol fva rows).2 =
            mkTable (selectedCols fva) ((fluxTable tol fva rows).filter isConsumed)
            from rfl, tableTotal_mkTable] at h0
      simp [percOf, hT]

/-- Witness for C7 at a producing table with a single exactly-zero flux
row (zero total). -/
theorem claim_C7_witness :
    ((generate 1 none [RowIn.mk "A" ⟨0, false⟩ 1]).1 =
        (generate 1 none [RowIn.mk "A" ⟨0, false⟩ 1]).1 ∨
      (generate 1 none [RowIn.mk "A" ⟨0, false⟩ 1]).1 =
        (generate 1 none [RowIn.mk "A" ⟨0, false⟩ 1]).2) ∧
      tableTotal (generate 1 none [RowIn.mk "A" ⟨0, false⟩ 1]).1 = 0 ∧
      (((generate 1 none [RowIn.mk "A" ⟨0, false⟩ 1]).1.rows.map PRow.base =
          (fluxTable 1 none [RowIn.mk "A" ⟨0, false⟩ 1]).filter isProduced ∨
        (generate 1 none [RowIn.mk "A" ⟨0, false⟩ 1]).1.rows.map PRow.base =
          (fluxTable 1 none [RowIn.mk "A" ⟨0, false⟩ 1]).filter isConsumed) ∧
        ∀ row ∈ (generate 1 none [RowIn.mk "A" ⟨0, false⟩ 1]).1.rows,
          row.percent = none) :=
  ⟨Or.inl rfl,
    by
      norm_num [tableTotal, generate, mkTable, fluxTable, buildRow, selTotal,
        snap, SF.mul, SF.ofQ, SF.addZero, SF.posZero, SF.sign, isProduced,
        isConsumed, percOf, qabs, List.filter_cons, decide_eq_true_eq],
    claim_C7 1 none [RowIn.mk "A" ⟨0, false⟩ 1] _ (Or.inl rfl)
      (by
        norm_num [tableTotal, generate, mkTable, fluxTable, buildRow, selTotal,
          snap, SF.mul, SF.ofQ, SF.addZero, SF.posZero, SF.sign, isProduced,
          isConsumed, percOf, qabs, List.filter_cons, decide_eq_true_eq])⟩

/-- C8: the rendering entry points are pure readers of the summary
state: the stored producing and consuming tables (indeed the whole
state) after a `to_string` or `to_html` call are the state before the
call, because the in-place pandas writes in `_display_flux`,
`_string_table` and `_html_table` hit fresh copies only. -/
theorem claim_C8 (s : SummaryState) (names : Bool) (threshold : ℚ)
    (floatFormat : String) (columnWidth : ℕ) :
    (toStringS s names threshold floatFormat columnWidth).2 = s ∧
      (toHtmlS s names threshold floatFormat).2 = s ∧
      (toStringS s names threshold floatFormat columnWidth).2.producing =
        s.producing ∧
      (toStringS s names threshold floatFormat columnWidth).2.consuming =
        s.consuming ∧
      (toHtmlS s names threshold floatFormat).2.producing = s.producing ∧
      (toHtmlS s names threshold floatFormat).2.consuming = s.consuming :=
  ⟨rfl, rfl, rfl, rfl, rfl, rfl⟩

/-- C9: render-time filtering is monotone in the threshold: raising the
threshold keeps a sub-sequence of the rows and never increases the
rendered row count. -/
theorem claim_C9 (rxnDef : Bool → String → String) (frame : FluxTable)
    (names : Bool) (t1 t2 : ℚ) (h : t1 ≤ t2) :
    List.Sublist (displayFlux rxnDef frame names t2).rows
        (displayFlux rxnDef frame names t1).rows ∧
      (displayFlux rxnDef frame names t2).rows.length ≤
        (displayFlux rxnDef frame names t1).rows.length := by
  have hmono : ∀ (hb : Bool) (r : PRow),
      keepRow hb t2 r = true → keepRow hb t1 r = true := by
    intro hb r hk
    cases hb <;> simp [keepRow, decide_eq_true_eq] at hk ⊢
    · exact le_trans h hk
    · rcases hk with (hk | hk) | hk
      · exact Or.inl (Or.inl (le_trans h hk))
      · exact Or.inl (Or.inr (le_trans h hk))
      · exact Or.inr (le_trans h hk)
  have hsub : List.Sublist
      (frame.rows.filter (keepRow
        (decide ("minimum" ∈ frame.columns) &&
          decide ("maximum" ∈ frame.columns)) t2))
      (frame.rows.filter (keepRow
        (decide ("minimum" ∈ frame.columns) &&
          decide ("maximum" ∈ frame.columns)) t1)) :=
    List.monotone_filter_right _ (hmono _)
  constructor
  · simp only [displayFlux]
    exact List.Sublist.map _ hsub
  · simp only [displayFlux, List.length_map]
    exact hsub.length_le

/-- Witness for C9 at a one-row table and thresholds `0 ≤ 1`. -/
theorem claim_C9_witness :
    (0 : ℚ) ≤ 1 ∧
      (List.Sublist
          (displayFlux (fun _ r => r)
            (FluxTable.mk ["flux", "reaction", "percent"]
              [PRow.mk (FluxRow.mk "A" ⟨1, false⟩ 1 none none) (some 1)])
            false 1).rows
          (displayFlux (fun _ r => r)
            (FluxTable.mk ["flux", "reaction", "percent"]
              [PRow.mk (FluxRow.mk "A" ⟨1, false⟩ 1 none none) (some 1)])
            false 0).rows ∧
        (displayFlux (fun _ r => r)
            (FluxTable.mk ["flux", "reaction", "percent"]
              [PRow.mk (FluxRow.mk "A" ⟨1, false⟩ 1 none none) (some 1)])
            false 1).rows.length ≤
          (displayFlux (fun _ r => r)
            (FluxTable.mk ["flux", "reaction", "percent"]
              [PRow.mk (FluxRow.mk "A" ⟨1, false⟩ 1 none none) (some 1)])
            false 0).rows.length) :=
  ⟨by norm_num,
    claim_C9 (fun _ r => r)
      (FluxTable.mk ["flux", "reaction", "percent"]
        [PRow.mk (FluxRow.mk "A" ⟨1, false⟩ 1 none none) (some 1)])
      false 0 1 (by norm_num)⟩

/-- C10: the below-tolerance test for the FVA bounds is applied to the
raw, unscaled bounds: a raw bound below the tolerance is stored as zero
even when its factor-scaled magnitude is at or above the tolerance, and —
concretely — a raw bound at the tolerance scaled by a factor of absolute
value less than one is stored non-zero with magnitude below the
tolerance. -/
theorem claim_C10 (tol : ℚ) (f : String → SF × SF) (r : RowIn)
    (hraw : qabs (f r.reaction).1.q < tol)
    (hscaled : tol ≤ qabs ((f r.reaction).1.q * r.factor)) :
    (if r.factor < 0 then (buildRow tol (some f) r).maximum
        else (buildRow tol (some f) r).minimum) = some SF.posZero ∧
      (buildRow 1 (some fun _ => (⟨1, false⟩, ⟨2, false⟩))
          (RowIn.mk "R" ⟨0, false⟩ (1/2))).minimum = some ⟨1/2, false⟩ ∧
      (0 : ℚ) < qabs (1/2) ∧ qabs ((1 : ℚ)/2) < 1 ∧ (1 : ℚ) ≤ qabs 1 := by
  refine ⟨snappedMin_posZero tol f r hraw, ?_, ?_, ?_, ?_⟩
  · norm_num [buildRow_some, snap, qabs, SF.mul, SF.ofQ, SF.addZero,
      SF.posZero, SF.sign]
  · norm_num [qabs]
  · norm_num [qabs]
  · norm_num [qabs]

/-- Witness for C10 at tolerance `1`, raw lower bound `1/2` and factor
`3` (scaled magnitude `3/2` at or above tolerance). -/
theorem claim_C10_witness :
    qabs (SF.mk (1/2) false).q < 1 ∧
      (1 : ℚ) ≤ qabs ((1/2) * 3) ∧
      ((if ((3 : ℚ)) < 0 then
          (buildRow 1 (some fun _ => (⟨1/2, false⟩, ⟨5, false⟩))
            (RowIn.mk "R" ⟨0, false⟩ 3)).maximum
        else
          (buildRow 1 (some fun _ => (⟨1/2, false⟩, ⟨5, false⟩))
            (RowIn.mk "R" ⟨0, false⟩ 3)).minimum) = some SF.posZero ∧
        (buildRow 1 (some fun _ => (⟨1, false⟩, ⟨2, false⟩))
            (RowIn.mk "R" ⟨0, false⟩ (1/2))).minimum = some ⟨1/2, false⟩ ∧
        (0 : ℚ) < qabs (1/2) ∧ qabs ((1 : ℚ)/2) < 1 ∧ (1 : ℚ) ≤ qabs 1) :=
  ⟨by norm_num [qabs], by norm_num [qabs],
    claim_C10 1 (fun _ => (⟨1/2, false⟩, ⟨5, false⟩)) (RowIn.mk "R" ⟨0, false⟩ 3)
      (by norm_num [qabs]) (by norm_num [qabs])⟩

end MetaboliteSummary
